import Mathlib

/-!
Verification of the grant-drafting-assistant repository.

The development shallowly embeds the two source files:
  * `process.py` — the text-analysis function `run`;
  * `main.py` — the admin request-queue manager (`safe_slug`,
    `write_report_file`, and the admin endpoint handlers).

Python strings are modelled as Lean `String`, with the Python string
operations re-implemented over the underlying character list so that all
definitions are executable and kernel-reducible.  The database table of
requests is modelled as a list of records; each SQL statement becomes the
corresponding pure list operation (`UPDATE ... WHERE` is a conditional
`map`, `DELETE ... WHERE` a `filter`, `SELECT ... WHERE id` a `find?`).
Side effects (files written, emails sent) are collected in the result of
each handler.  Times and date stamps are passed in as parameters, and the
success of the SMTP send is a boolean parameter.
-/

/-! ## Python string primitives -/

/-- Python `str.strip()`: remove leading and trailing whitespace. -/
def pyStrip (s : String) : String :=
  String.mk (((s.data.dropWhile Char.isWhitespace).reverse.dropWhile
    Char.isWhitespace).reverse)

/-- Python `str.lower()` (ASCII case mapping). -/
def pyLower (s : String) : String :=
  String.mk (s.data.map Char.toLower)

/-- Python `str.upper()` (ASCII case mapping). -/
def pyUpper (s : String) : String :=
  String.mk (s.data.map Char.toUpper)

/-- Python `s[:n]`. -/
def pyTake (s : String) (n : Nat) : String :=
  String.mk (s.data.take n)

/-- Helper for `pyWordCount`: counts maximal non-whitespace runs; the
boolean records whether the scan is currently inside a word. -/
def countWordsAux : List Char → Bool → Nat
  | [], _ => 0
  | c :: t, inWord =>
    if c.isWhitespace then countWordsAux t false
    else (if inWord then 0 else 1) + countWordsAux t true

/-- Python `len(s.split())`: the number of whitespace-separated words. -/
def pyWordCount (s : String) : Nat := countWordsAux s.data false

/-- Helper for `pyContains`: substring occurrence on character lists. -/
def containsSubAux (needle : List Char) : List Char → Bool
  | [] => needle.isEmpty
  | l@(_ :: t) => needle.isPrefixOf l || containsSubAux needle t

/-- Python `needle in hay` on strings: substring containment. -/
def pyContains (hay needle : String) : Bool :=
  containsSubAux needle.data hay.data

/-- Python `os.path.basename`: the part of the path after the last slash. -/
def pyBasename (p : String) : String :=
  String.mk ((p.data.reverse.takeWhile (fun c => c ≠ '/')).reverse)

/-- Python `os.path.join(a, b)` for two components. -/
def os_path_join (a b : String) : String :=
  if b.data.head? = some '/' then b
  else if a = "" then b
  else if a.data.getLast? = some '/' then a ++ b
  else a ++ "/" ++ b

/-! ## Model of `src/process.py` -/

namespace Process

/-- The result dictionary returned by `process.run`: either the error
object `{status, message}` or the full analysis object, holding exactly the
fields the source constructs. -/
inductive RunResult where
  | errorResult (status message : String)
  | processed (status summary : String) (chars words : Nat)
      (strengths risks next_steps : List String)
deriving DecidableEq

/-- The `risks` field of a result (empty on the error object, which has no
such field). -/
def RunResult.risks : RunResult → List String
  | .errorResult _ _ => []
  | .processed _ _ _ _ _ r _ => r

/-- The `strengths` field of a result (empty on the error object). -/
def RunResult.strengths : RunResult → List String
  | .errorResult _ _ => []
  | .processed _ _ _ _ s _ _ => s

/-- Embedding of `process.run`.  The payload's `"input"` field is an
optional string (`none` when the key is missing); Python's truthiness test
`if not text` is the `none`-or-empty check. -/
def run (payload : Option String) : RunResult :=
  match payload with
  | none => .errorResult "error" "No input provided"
  | some text =>
    if text = "" then .errorResult "error" "No input provided"
    else
      let word_count := pyWordCount text
      let risk_flags :=
        (if word_count < 50 then ["Too little detail"] else []) ++
        (if pyContains (pyLower text) "budget" then [] else ["No budget mentioned"]) ++
        (if pyContains (pyLower text) "timeline" then [] else ["No timeline mentioned"])
      .processed "processed" (pyTake text 300) text.length word_count
        [if word_count > 50 then "Clear intent" else "Concise idea"]
        risk_flags
        ["Expand project description", "Add budget section", "Define timeline"]

end Process

/-! ## Model of `src/main.py` -/

/-- The `intake` JSON column: the five free-text fields written by the
intake handler.  Fields are optional because the handlers read them with
`dict.get` and a row's intake may lack keys (`r["intake"] or {}`). -/
structure Intake where
  grant_name : Option String
  applicant_entity : Option String
  purpose : Option String
  use_of_funds : Option String
  deadline_jurisdiction : Option String
deriving DecidableEq

/-- One row of the `requests` table. -/
structure Request where
  id : String
  created_at : Nat
  client_name : String
  client_email : String
  status : String
  intake : Intake
  report_path : Option String
  report_created_at : Option Nat
  delivered_at : Option Nat
  archived_at : Option Nat
  notes : Option String
deriving DecidableEq

/-- The `requests` table. -/
abbrev Store := List Request

/-- The HTTP outcome of a handler: a redirect, an `HTTPException(404)`, a
`FileResponse`, or an unhandled exception propagating as a server error. -/
inductive Response where
  | redirect (url : String)
  | notFound (detail : String)
  | fileResponse (path filename : String)
  | serverError
deriving DecidableEq

/-- Whether a response is an HTTP 404. -/
def Response.isNotFound : Response → Bool
  | .notFound _ => true
  | _ => false

/-- A handler's outcome: the HTTP response, the resulting table, the report
files written to disk as (path, text) pairs, and the emails successfully
sent as (recipient, attachment path) pairs. -/
structure ActionResult where
  response : Response
  store : Store
  reports : List (String × String)
  emails : List (String × String)
deriving DecidableEq

/-- `SELECT * FROM requests WHERE id=%s` with `fetchone`. -/
def findById (store : Store) (rid : String) : Option Request :=
  store.find? (fun r => r.id == rid)

/-- `UPDATE requests SET ... WHERE ...`: apply `f` to every row satisfying
`cond`. -/
def updateWhere (store : Store) (cond : Request → Bool) (f : Request → Request) : Store :=
  store.map (fun r => if cond r then f r else r)

/-- How `safe_slug` treats one character: alphanumeric characters are kept,
space, hyphen and underscore become an underscore, everything else is
dropped. -/
def slugChar (c : Char) : Option Char :=
  if c.isAlphanum then some c
  else if c = ' ' ∨ c = '-' ∨ c = '_' then some '_'
  else none

/-- The character sequence `"".join(keep).strip("_")` computed inside
`safe_slug`: translate each character of the stripped input through
`slugChar`, then remove leading and trailing underscores. -/
def safe_slugOut (s : String) : List Char :=
  ((((pyStrip s).data.filterMap slugChar).dropWhile (fun c => c == '_')).reverse.dropWhile
    (fun c => c == '_')).reverse

/-- Embedding of `safe_slug` from `main.py`: `out[:40] if out else "UNKNOWN"`. -/
def safe_slug (s : String) : String :=
  if safe_slugOut s = [] then "UNKNOWN" else String.mk ((safe_slugOut s).take 40)

/-- Embedding of `run_grant_forge`: the fixed-format report text. -/
def run_grant_forge (intake : Intake) : String :=
  let grant := intake.grant_name.getD "UNKNOWN"
  let entity := intake.applicant_entity.getD "UNKNOWN"
  let purpose := intake.purpose.getD ""
  let use_of_funds := intake.use_of_funds.getD ""
  let deadline := intake.deadline_jurisdiction.getD ""
  "GRANT-FORGE — GRANT READINESS REVIEW\n\nGrant/Program: " ++ grant ++
    "\nApplicant: " ++ entity ++ "\nDeadline/Jurisdiction: " ++ deadline ++
    "\n\n1) Eligibility Alignment\n- TBD (engine output)\n\n2) Narrative Strength\n- TBD (engine output)\n\n3) Compliance / Risk Flags\n- TBD (engine output)\n\n4) Readiness Call\n- PROCEED / REVISE / DO NOT SUBMIT\n\nNotes\n- Purpose: " ++
    pyTake purpose 800 ++ "\n- Use of Funds: " ++ pyTake use_of_funds 800 ++ "\n"

/-- Embedding of `write_report_file`: the path of the PDF it writes and
returns.  `report_dir` is the `REPORT_DIR` environment value and
`date_str` the `utcnow` date stamp; the PDF drawing itself is outside the
model (the written content is recorded by the callers instead). -/
def write_report_file (report_dir date_str : String)
    (request_id client_name grant_name : String) : String :=
  let fname := date_str ++ "_GRANTFORGE_" ++ safe_slug client_name ++ "_" ++
    safe_slug grant_name ++ "_REVIEW.pdf"
  os_path_join report_dir (request_id ++ "_" ++ fname)

/-- The request record constructed and inserted by `admin_new_request`:
the text fields are stripped and the status is `(status_ or
"PAID").strip().upper()`, where `status_` is `none` when the form omits
the field (FastAPI's default then supplies `"PAID"`). -/
def new_request_record (now : Nat) (rid : String)
    (client_name client_email grant_name applicant_entity purpose
      use_of_funds deadline_jurisdiction : String)
    (status_ notes : Option String) : Request :=
  { id := rid
    created_at := now
    client_name := pyStrip client_name
    client_email := pyStrip client_email
    status := pyUpper (pyStrip (match status_ with
      | none => "PAID"
      | some s => if s = "" then "PAID" else s))
    intake :=
      { grant_name := some (pyStrip grant_name)
        applicant_entity := some (pyStrip applicant_entity)
        purpose := some (pyStrip purpose)
        use_of_funds := some (pyStrip use_of_funds)
        deadline_jurisdiction := some (pyStrip deadline_jurisdiction) }
    report_path := none
    report_created_at := none
    delivered_at := none
    archived_at := none
    notes := notes }

/-- Embedding of the `POST /admin/new` handler. -/
def admin_new_request (store : Store) (now : Nat) (rid : String)
    (client_name client_email grant_name applicant_entity purpose
      use_of_funds deadline_jurisdiction : String)
    (status_ notes : Option String) : ActionResult :=
  ⟨Response.redirect "/admin",
    store ++ [new_request_record now rid client_name client_email grant_name
      applicant_entity purpose use_of_funds deadline_jurisdiction status_ notes],
    [], []⟩

/-- Embedding of the `POST /admin/run/{request_id}` handler.  `smtp_ok`
says whether the SMTP send succeeds; when it fails the exception
propagates (server error) after the `REPORT_READY` write has committed. -/
def admin_run (report_dir date_str : String) (now : Nat) (smtp_ok : Bool)
    (store : Store) (request_id : String) : ActionResult :=
  match findById store request_id with
  | none => ⟨Response.notFound "Request not found", store, [], []⟩
  | some r =>
    if ¬(r.status = "APPROVED" ∨ r.status = "PAID") then
      ⟨Response.redirect "/admin", store, [], []⟩
    else
      let store1 := updateWhere store (fun q => q.id == request_id)
        (fun q => { q with status := "RUN_STARTED" })
      let report_text := run_grant_forge r.intake
      let report_path := write_report_file report_dir date_str r.id
        r.client_name (r.intake.grant_name.getD "UNKNOWN")
      let store2 := updateWhere store1 (fun q => q.id == request_id)
        (fun q => { q with
          status := "REPORT_READY"
          report_path := some report_path
          report_created_at := some now })
      let client_email := match findById store2 request_id with
        | none => ""
        | some row => row.client_email
      if client_email ≠ "" then
        if smtp_ok then
          ⟨Response.redirect "/admin",
            updateWhere store2 (fun q => q.id == request_id)
              (fun q => { q with status := "DELIVERED", delivered_at := some now }),
            [(report_path, report_text)], [(client_email, report_path)]⟩
        else
          ⟨Response.serverError, store2, [(report_path, report_text)], []⟩
      else
        ⟨Response.redirect "/admin", store2, [(report_path, report_text)], []⟩

/-- Embedding of the `GET /admin/download/{request_id}` handler. -/
def admin_download (store : Store) (request_id : String) : ActionResult :=
  match findById store request_id with
  | none => ⟨Response.notFound "Report not found", store, [], []⟩
  | some r =>
    match r.report_path with
    | none => ⟨Response.notFound "Report not found", store, [], []⟩
    | some p =>
      if p = "" then ⟨Response.notFound "Report not found", store, [], []⟩
      else ⟨Response.fileResponse p (pyBasename p), store, [], []⟩

/-- Embedding of the `POST /admin/delivered/{request_id}` handler: a single
conditional update keyed on the expected prior status. -/
def admin_mark_delivered (now : Nat) (store : Store) (request_id : String) :
    ActionResult :=
  ⟨Response.redirect "/admin",
    updateWhere store (fun q => q.id == request_id && q.status == "REPORT_READY")
      (fun q => { q with status := "DELIVERED", delivered_at := some now }),
    [], []⟩

/-- Embedding of the `POST /admin/archive/{request_id}` handler. -/
def admin_archive (now : Nat) (store : Store) (request_id : String) :
    ActionResult :=
  ⟨Response.redirect "/admin",
    updateWhere store (fun q => q.id == request_id &&
        (q.status == "REPORT_READY" || q.status == "DELIVERED"))
      (fun q => { q with status := "ARCHIVED", archived_at := some now }),
    [], []⟩

/-- Embedding of the `POST /admin/delete/{request_id}` handler. -/
def admin_delete (store : Store) (request_id : String) : ActionResult :=
  ⟨Response.redirect "/admin", store.filter (fun r => !(r.id == request_id)),
    [], []⟩

/-! ## The status sequence -/

/-- Position of a status label in the fixed forward sequence
`PAID`/`APPROVED` → `RUN_STARTED` → `REPORT_READY` → `DELIVERED` →
`ARCHIVED`; `none` for labels outside the sequence. -/
def statusRank : String → Option Nat
  | "PAID" => some 0
  | "APPROVED" => some 0
  | "RUN_STARTED" => some 1
  | "REPORT_READY" => some 2
  | "DELIVERED" => some 3
  | "ARCHIVED" => some 4
  | _ => none

/-- The rank of the status of the row at position `i` of the table. -/
def rankAt (store : Store) (i : Nat) : Option Nat :=
  match store[i]? with
  | none => none
  | some r => statusRank r.status

/-- One admin transition operation (the three status-writing operations of
the lifecycle driver). -/
inductive AdminOp where
  | runOp (report_dir date_str : String) (now : Nat) (smtp_ok : Bool) (rid : String)
  | deliveredOp (now : Nat) (rid : String)
  | archiveOp (now : Nat) (rid : String)
deriving DecidableEq

/-- The table produced by one admin transition operation. -/
def applyOp (store : Store) : AdminOp → Store
  | .runOp dir d now ok rid => (admin_run dir d now ok store rid).store
  | .deliveredOp now rid => (admin_mark_delivered now store rid).store
  | .archiveOp now rid => (admin_archive now store rid).store

/-- The table produced by a sequence of admin transition operations
applied in order. -/
def applyOps (store : Store) (ops : List AdminOp) : Store :=
  ops.foldl applyOp store

/-! ## Spec-side definition for the refinement check of the artifact name -/

/-- Modelled from the spec's words (section 6, "Persisted artifact"): a file
name "composed of exactly a date stamp, the sanitized client name, the
sanitized grant name, and a fixed suffix, with no other components" (the
fixed `GRANTFORGE` tag and `_REVIEW.pdf` suffix are counted as the fixed
parts).  To be compared against the name produced by
`write_report_file`. -/
def specReportFileName (date_str client_name grant_name : String) : String :=
  date_str ++ "_GRANTFORGE_" ++ safe_slug client_name ++ "_" ++
    safe_slug grant_name ++ "_REVIEW.pdf"

/-! ## Concrete fixtures for witness instances -/

/-- A sample request row in status `PAID`. -/
def sampleReq : Request :=
  { id := "a"
    created_at := 0
    client_name := "Acme Co"
    client_email := "client@example.org"
    status := "PAID"
    intake := ⟨some "Big Grant", some "Acme LLC", some "p", some "u", some "d"⟩
    report_path := none
    report_created_at := none
    delivered_at := none
    archived_at := none
    notes := none }

/-- A sample request row whose status is outside `PAID`/`APPROVED`. -/
def sampleReqStarted : Request :=
  { sampleReq with status := "RUN_STARTED" }

/-- A fifty-word sample text containing neither "budget" nor "timeline". -/
def fiftyWords : String :=
  "w w w w w w w w w w w w w w w w w w w w w w w w w " ++
  "w w w w w w w w w w w w w w w w w w w w w w w w w"

/-! ## Theorems about `process.run` -/

/-- C4: a payload whose input field is the empty string, or is missing,
makes `process.run` return exactly the object
`{status: "error", message: "No input provided"}` (the `errorResult`
constructor carries exactly these two fields and nothing else). -/
theorem C4_empty_input_error :
    Process.run (some "") = Process.RunResult.errorResult "error" "No input provided" ∧
    Process.run none = Process.RunResult.errorResult "error" "No input provided" :=
  ⟨rfl, rfl⟩

/-- C5: any non-empty text with fewer than 50 whitespace-separated words
that mentions neither "budget" nor "timeline" (case-insensitively) is
flagged with all three risk messages. -/
theorem C5_short_text_all_risks (t : String) (h0 : t ≠ "")
    (h1 : pyWordCount t < 50)
    (h2 : pyContains (pyLower t) "budget" = false)
    (h3 : pyContains (pyLower t) "timeline" = false) :
    "Too little detail" ∈ (Process.run (some t)).risks ∧
    "No budget mentioned" ∈ (Process.run (some t)).risks ∧
    "No timeline mentioned" ∈ (Process.run (some t)).risks := by
  simp [Process.run, Process.RunResult.risks, h0, h1, h2, h3]

theorem C5_short_text_all_risks_witness :
    "Too little detail" ∈ (Process.run (some "hello world")).risks ∧
    "No budget mentioned" ∈ (Process.run (some "hello world")).risks ∧
    "No timeline mentioned" ∈ (Process.run (some "hello world")).risks :=
  C5_short_text_all_risks "hello world" (by decide) (by decide) (by decide) (by decide)

/-- C9: at exactly 50 words the risk threshold (strictly below 50) and the
strength threshold (strictly above 50) both miss: no "Too little detail"
risk, and the strengths list is exactly `["Concise idea"]`. -/
theorem C9_fifty_words_boundary (t : String) (h : pyWordCount t = 50) :
    "Too little detail" ∉ (Process.run (some t)).risks ∧
    (Process.run (some t)).strengths = ["Concise idea"] := by
  have h0 : t ≠ "" := by
    intro he
    rw [he] at h
    exact absurd h (by decide)
  constructor
  · simp only [Process.run, if_neg h0, Process.RunResult.risks, h]
    cases hb : pyContains (pyLower t) "budget" <;>
      cases ht : pyContains (pyLower t) "timeline" <;> simp
  · simp [Process.run, Process.RunResult.strengths, h0, h]

theorem C9_fifty_words_boundary_witness :
    "Too little detail" ∉ (Process.run (some fiftyWords)).risks ∧
    (Process.run (some fiftyWords)).strengths = ["Concise idea"] :=
  C9_fifty_words_boundary fiftyWords (by decide)

/-! ## Helper lemmas about the store operations -/

/-- A conditional update whose condition holds nowhere leaves the table
unchanged. -/
theorem updateWhere_eq_self (store : Store) (cond : Request → Bool)
    (f : Request → Request) (h : ∀ r ∈ store, cond r = false) :
    updateWhere store cond f = store := by
  unfold updateWhere
  induction store with
  | nil => rfl
  | cons a t ih =>
    simp only [List.map_cons, h a (List.mem_cons_self a t), if_false,
      Bool.false_eq_true, List.cons.injEq, true_and]
    exact ih (fun r hr => h r (List.mem_cons_of_mem a hr))

/-! ## Theorems about the admin handlers -/

/-- C2: when the looked-up row's status is neither `PAID` nor `APPROVED`,
the run handler returns a redirect to the admin page and nothing else
happens: the table is unchanged, no report file is written, and no email
is sent. -/
theorem C2_run_noop (report_dir date_str : String) (now : Nat) (smtp_ok : Bool)
    (store : Store) (rid : String) (r : Request)
    (hfind : findById store rid = some r)
    (hp : r.status ≠ "PAID") (ha : r.status ≠ "APPROVED") :
    admin_run report_dir date_str now smtp_ok store rid =
      ⟨Response.redirect "/admin", store, [], []⟩ := by
  unfold admin_run
  rw [hfind]
  simp [hp, ha]

theorem C2_run_noop_witness :
    admin_run "/srv/reports" "2026-10-12" 9 true [sampleReqStarted] "a" =
      ⟨Response.redirect "/admin", [sampleReqStarted], [], []⟩ :=
  C2_run_noop "/srv/reports" "2026-10-12" 9 true [sampleReqStarted] "a"
    sampleReqStarted (by decide) (by decide) (by decide)

/-- C3 counterexample: deleting a request identifier that is not in the
store yields a redirect, not a not-found response, so it is false that
every admin operation referencing a nonexistent identifier yields a
not-found response. -/
theorem C3_cex_delete_missing_redirects :
    (admin_delete ([] : Store) "missing").response.isNotFound = false :=
  rfl

/-- C3 amended: for an identifier not in the store, run and download yield
a not-found response, while mark-delivered, archive and delete return a
redirect and leave the store unchanged. -/
theorem C3_missing_id_responses (report_dir date_str : String) (now : Nat)
    (smtp_ok : Bool) (store : Store) (rid : String)
    (hfind : findById store rid = none) :
    (admin_run report_dir date_str now smtp_ok store rid).response =
      Response.notFound "Request not found" ∧
    (admin_download store rid).response = Response.notFound "Report not found" ∧
    admin_mark_delivered now store rid =
      ⟨Response.redirect "/admin", store, [], []⟩ ∧
    admin_archive now store rid = ⟨Response.redirect "/admin", store, [], []⟩ ∧
    admin_delete store rid = ⟨Response.redirect "/admin", store, [], []⟩ := by
  have hall : ∀ r ∈ store, (r.id == rid) = false := by
    intro r hr
    have := List.find?_eq_none.mp hfind r hr
    simpa using this
  refine ⟨?_, ?_, ?_, ?_, ?_⟩
  · unfold admin_run; rw [hfind]
  · unfold admin_download; rw [hfind]
  · unfold admin_mark_delivered
    rw [updateWhere_eq_self]
    intro r hr
    simp [hall r hr]
  · unfold admin_archive
    rw [updateWhere_eq_self]
    intro r hr
    simp [hall r hr]
  · unfold admin_delete
    rw [List.filter_eq_self.mpr]
    intro r hr
    simp [hall r hr]

theorem C3_missing_id_responses_witness :
    (admin_run "/srv/reports" "2026-10-12" 9 true [sampleReq] "zz").response =
      Response.notFound "Request not found" ∧
    (admin_download [sampleReq] "zz").response = Response.notFound "Report not found" ∧
    admin_mark_delivered 9 [sampleReq] "zz" =
      ⟨Response.redirect "/admin", [sampleReq], [], []⟩ ∧
    admin_archive 9 [sampleReq] "zz" = ⟨Response.redirect "/admin", [sampleReq], [], []⟩ ∧
    admin_delete [sampleReq] "zz" = ⟨Response.redirect "/admin", [sampleReq], [], []⟩ :=
  C3_missing_id_responses "/srv/reports" "2026-10-12" 9 true [sampleReq] "zz" (by decide)

/-- C8: after deleting a request identifier, the record is absent: a lookup
finds nothing, and both the run and download handlers answer not-found for
that identifier. -/
theorem C8_delete_removes_record (store : Store) (rid : String)
    (report_dir date_str : String) (now : Nat) (smtp_ok : Bool) :
    findById (admin_delete store rid).store rid = none ∧
    (admin_run report_dir date_str now smtp_ok (admin_delete store rid).store rid).response =
      Response.notFound "Request not found" ∧
    (admin_download (admin_delete store rid).store rid).response =
      Response.notFound "Report not found" := by
  have hnone : findById (admin_delete store rid).store rid = none := by
    unfold admin_delete findById
    rw [List.find?_eq_none]
    intro x hx
    have hmem := (List.mem_filter.mp hx).2
    simp only [Bool.not_eq_eq_eq_not, Bool.not_true] at hmem
    simp [hmem]
  refine ⟨hnone, ?_, ?_⟩
  · unfold admin_run; rw [hnone]
  · unfold admin_download; rw [hnone]

/-- C6 counterexample: submitting the status value "paid" creates a record
whose status is "PAID", not the submitted value, so the created status is
not always equal to the submitted status value. -/
theorem C6_cex_lowercase_status :
    (new_request_record 0 "r1" "C" "e" "G" "A" "P" "U" "D" (some "paid") none).status =
      "PAID" ∧
    (new_request_record 0 "r1" "C" "e" "G" "A" "P" "U" "D" (some "paid") none).status ≠
      "paid" := by
  constructor
  · rfl
  · decide

/-- C6 amended: the intake handler appends a record whose status is the
submitted status value with surrounding whitespace stripped and letters
uppercased; a missing or empty status value yields `PAID`. -/
theorem C6_intake_status (store : Store) (now : Nat) (rid : String)
    (cn ce gn ae pu uf dj : String) (status_ notes : Option String) :
    (admin_new_request store now rid cn ce gn ae pu uf dj status_ notes).store =
      store ++ [new_request_record now rid cn ce gn ae pu uf dj status_ notes] ∧
    (new_request_record now rid cn ce gn ae pu uf dj status_ notes).status =
      pyUpper (pyStrip (match status_ with
        | none => "PAID"
        | some s => if s = "" then "PAID" else s)) ∧
    (new_request_record now rid cn ce gn ae pu uf dj none notes).status = "PAID" ∧
    (new_request_record now rid cn ce gn ae pu uf dj (some "") notes).status = "PAID" :=
  ⟨rfl, rfl, rfl, rfl⟩

/-- C7 counterexample: the file name actually recorded for a run also
carries the request identifier as a leading component, so it is not
composed of exactly a date stamp, the sanitized client name, the sanitized
grant name and the fixed parts. -/
theorem C7_cex_id_in_filename :
    pyBasename (write_report_file "/srv/reports" "2026-01-02" "rid9" "Acme Co" "Big Grant") ≠
      specReportFileName "2026-01-02" "Acme Co" "Big Grant" := by
  decide

/-- C7 amended: the recorded artifact path lies directly under the
configured report directory, and its file name is the request identifier
followed by the date stamp, the fixed tag, the sanitized client name, the
sanitized grant name and the fixed suffix. -/
theorem C7_report_path_shape (report_dir date_str rid client grant : String)
    (hdir : report_dir ≠ "")
    (hsl : report_dir.data.getLast? ≠ some '/')
    (hrid : rid.data.head? ≠ some '/') :
    write_report_file report_dir date_str rid client grant =
      report_dir ++ "/" ++ rid ++ "_" ++ specReportFileName date_str client grant := by
  unfold write_report_file os_path_join
  have hb : (rid ++ "_" ++ (date_str ++ "_GRANTFORGE_" ++ safe_slug client ++ "_" ++
      safe_slug grant ++ "_REVIEW.pdf")).data.head? ≠ some '/' := by
    rw [String.data_append, String.data_append]
    cases hr : rid.data with
    | nil => simp
    | cons c t =>
      simp only [List.cons_append, List.head?_cons, ne_eq, Option.some.injEq]
      intro hc
      exact hrid (by rw [hr, hc]; rfl)
  rw [if_neg hb, if_neg hdir, if_neg hsl]
  simp [specReportFileName, String.append_assoc]

theorem C7_report_path_shape_witness :
    write_report_file "/srv/reports" "2026-01-02" "rid9" "Acme Co" "Big Grant" =
      "/srv/reports" ++ "/" ++ "rid9" ++ "_" ++
        specReportFileName "2026-01-02" "Acme Co" "Big Grant" :=
  C7_report_path_shape "/srv/reports" "2026-01-02" "rid9" "Acme Co" "Big Grant"
    (by decide) (by decide) (by decide)

/-- Every character surviving `safe_slug`'s per-character translation and
underscore stripping is alphanumeric or an underscore. -/
theorem mem_safe_slugOut (s : String) (c : Char) (h : c ∈ safe_slugOut s) :
    c.isAlphanum ∨ c = '_' := by
  unfold safe_slugOut at h
  have h1 : c ∈ ((pyStrip s).data.filterMap slugChar).dropWhile (fun c => c == '_') := by
    have h2 := List.mem_reverse.mp h
    have h3 := (List.dropWhile_sublist (fun c => c == '_')).mem h2
    exact List.mem_reverse.mp h3
  have h4 : c ∈ (pyStrip s).data.filterMap slugChar :=
    (List.dropWhile_sublist (fun c => c == '_')).mem h1
  rcases List.mem_filterMap.mp h4 with ⟨a, _, hsc⟩
  unfold slugChar at hsc
  split_ifs at hsc with ha hu
  · cases hsc
    exact Or.inl ha
  · rw [Option.some.injEq] at hsc
    exact Or.inr hsc.symm

/-- C10: `safe_slug` always returns a non-empty string of at most 40
characters made only of alphanumeric characters and underscores, so report
file names built from it contain no path separators or other special
characters. -/
theorem C10_safe_slug_sanitizes (s : String) :
    safe_slug s ≠ "" ∧ (safe_slug s).length ≤ 40 ∧
    ((safe_slug s).data.all (fun c => c.isAlphanum || c == '_')) = true := by
  by_cases h : safe_slugOut s = []
  · unfold safe_slug
    rw [if_pos h]
    exact ⟨by decide, by decide, by decide⟩
  · unfold safe_slug
    rw [if_neg h]
    refine ⟨?_, ?_, ?_⟩
    · intro he
      have hd : ((safe_slugOut s).take 40) = [] := congrArg String.data he
      rcases List.take_eq_nil_iff.mp hd with h40 | hnil
      · exact absurd h40 (by decide)
      · exact h hnil
    · show ((safe_slugOut s).take 40).length ≤ 40
      rw [List.length_take]
      exact min_le_left 40 _
    · rw [List.all_eq_true]
      intro c hc
      have hm : c ∈ safe_slugOut s := List.mem_of_mem_take hc
      rcases mem_safe_slugOut s c hm with hca | hcu
      · simp [hca]
      · simp [hcu]

/-! ## Status monotonicity -/

/-- Positional lookup through a conditional update. -/
theorem updateWhere_getElem (store : Store) (cond : Request → Bool)
    (f : Request → Request) (i : Nat) :
    (updateWhere store cond f)[i]? =
      store[i]?.map (fun r => if cond r then f r else r) :=
  List.getElem?_map _ store i

/-- Conditional updates that do not touch the `id` field keep the column of
identifiers intact. -/
theorem updateWhere_map_id (store : Store) (cond : Request → Bool)
    (f : Request → Request) (hf : ∀ r, (f r).id = r.id) :
    (updateWhere store cond f).map Request.id = store.map Request.id := by
  unfold updateWhere
  rw [List.map_map]
  apply List.map_congr_left
  intro r _
  by_cases h : cond r <;> simp [h, hf]

/-- No admin transition operation changes the column of identifiers (in
particular none inserts or removes rows). -/
theorem applyOp_map_id (store : Store) (op : AdminOp) :
    (applyOp store op).map Request.id = store.map Request.id := by
  cases op with
  | runOp dir d now ok rid =>
    show ((admin_run dir d now ok store rid).store).map Request.id = _
    unfold admin_run
    cases hf : findById store rid with
    | none => rfl
    | some r =>
      dsimp only
      by_cases hg : r.status = "APPROVED" ∨ r.status = "PAID"
      · rw [if_neg (not_not_intro hg)]
        split
        · split
          · dsimp only
            rw [updateWhere_map_id, updateWhere_map_id, updateWhere_map_id]
            all_goals intro q
            all_goals rfl
          · dsimp only
            rw [updateWhere_map_id, updateWhere_map_id]
            all_goals intro q
            all_goals rfl
        · dsimp only
          rw [updateWhere_map_id, updateWhere_map_id]
          all_goals intro q
          all_goals rfl
      · rw [if_pos hg]
  | deliveredOp now rid =>
    exact updateWhere_map_id _ _ _ (fun q => rfl)
  | archiveOp now rid =>
    exact updateWhere_map_id _ _ _ (fun q => rfl)

/-- One admin transition operation never moves the row at any position to
an earlier point of the status sequence. -/
theorem applyOp_rank_advance (store : Store) (op : AdminOp)
    (hnd : (store.map Request.id).Nodup) (i : Nat) (a : Nat)
    (ha : rankAt store i = some a) :
    ∃ b, rankAt (applyOp store op) i = some b ∧ a ≤ b := by
  unfold rankAt at ha
  cases hi : store[i]? with
  | none => rw [hi] at ha; exact absurd ha (by simp)
  | some r0 =>
    rw [hi] at ha
    dsimp only at ha
    cases op with
    | deliveredOp now rid =>
      unfold applyOp admin_mark_delivered
      dsimp only
      by_cases hc : (r0.id == rid && r0.status == "REPORT_READY") = true
      · have hst : r0.status = "REPORT_READY" :=
          eq_of_beq ((Bool.and_eq_true _ _).mp hc).2
        have ha2 : a = 2 := by
          rw [hst] at ha
          exact (Option.some.inj ha).symm
        refine ⟨3, ?_, by omega⟩
        unfold rankAt
        rw [updateWhere_getElem, hi]
        dsimp only [Option.map_some']
        rw [if_pos hc]
        rfl
      · refine ⟨a, ?_, le_refl a⟩
        unfold rankAt
        rw [updateWhere_getElem, hi]
        dsimp only [Option.map_some']
        rw [if_neg hc]
        exact ha
    | archiveOp now rid =>
      unfold applyOp admin_archive
      dsimp only
      by_cases hc : (r0.id == rid &&
          (r0.status == "REPORT_READY" || r0.status == "DELIVERED")) = true
      · have hst : r0.status = "REPORT_READY" ∨ r0.status = "DELIVERED" := by
          rcases (Bool.or_eq_true _ _).mp ((Bool.and_eq_true _ _).mp hc).2 with h | h
          · exact Or.inl (eq_of_beq h)
          · exact Or.inr (eq_of_beq h)
        have ha23 : a = 2 ∨ a = 3 := by
          rcases hst with h | h <;> rw [h] at ha
          · exact Or.inl (Option.some.inj ha).symm
          · exact Or.inr (Option.some.inj ha).symm
        refine ⟨4, ?_, by omega⟩
        unfold rankAt
        rw [updateWhere_getElem, hi]
        dsimp only [Option.map_some']
        rw [if_pos hc]
        rfl
      · refine ⟨a, ?_, le_refl a⟩
        unfold rankAt
        rw [updateWhere_getElem, hi]
        dsimp only [Option.map_some']
        rw [if_neg hc]
        exact ha
    | runOp dir d now ok rid =>
      unfold applyOp admin_run
      cases hf : findById store rid with
      | none =>
        dsimp only
        rw [hf]
        refine ⟨a, ?_, le_refl a⟩
        unfold rankAt
        rw [hi]
        exact ha
      | some r =>
        dsimp only
        rw [hf]
        dsimp only
        by_cases hg : r.status = "APPROVED" ∨ r.status = "PAID"
        · rw [if_neg (not_not_intro hg)]
          by_cases hid : (r0.id == rid) = true
          · -- the updated row is the row found by the guard
            have hr0mem : r0 ∈ store := List.getElem?_mem hi
            have hfind2 : store.find? (fun q => q.id == rid) = some r := hf
            have hrmem : r ∈ store := List.mem_of_find?_eq_some hfind2
            have hridq := List.find?_some hfind2
            have hr0r : r0 = r :=
              List.inj_on_of_nodup_map hnd hr0mem hrmem
                (by rw [eq_of_beq hid, eq_of_beq hridq])
            have ha0 : a = 0 := by
              rcases hg with h | h <;> rw [hr0r, h] at ha
              · exact (Option.some.inj ha).symm
              · exact (Option.some.inj ha).symm
            split
            · split
              · -- email sent: final status DELIVERED
                refine ⟨3, ?_, by omega⟩
                dsimp only
                unfold rankAt
                rw [updateWhere_getElem, updateWhere_getElem, updateWhere_getElem, hi]
                dsimp only [Option.map_some']
                rw [if_pos hid]
                dsimp only
                rw [if_pos hid]
                dsimp only
                rw [if_pos hid]
                rfl
              · -- email failed: final status REPORT_READY
                refine ⟨2, ?_, by omega⟩
                dsimp only
                unfold rankAt
                rw [updateWhere_getElem, updateWhere_getElem, hi]
                dsimp only [Option.map_some']
                rw [if_pos hid]
                dsimp only
                rw [if_pos hid]
                rfl
            · -- no email address: final status REPORT_READY
              refine ⟨2, ?_, by omega⟩
              dsimp only
              unfold rankAt
              rw [updateWhere_getElem, updateWhere_getElem, hi]
              dsimp only [Option.map_some']
              rw [if_pos hid]
              dsimp only
              rw [if_pos hid]
              rfl
          · -- a different row: untouched by all three updates
            split
            · split
              · refine ⟨a, ?_, le_refl a⟩
                dsimp only
                unfold rankAt
                rw [updateWhere_getElem, updateWhere_getElem, updateWhere_getElem, hi]
                dsimp only [Option.map_some']
                rw [if_neg hid]
                rw [if_neg hid]
                rw [if_neg hid]
                exact ha
              · refine ⟨a, ?_, le_refl a⟩
                dsimp only
                unfold rankAt
                rw [updateWhere_getElem, updateWhere_getElem, hi]
                dsimp only [Option.map_some']
                rw [if_neg hid]
                rw [if_neg hid]
                exact ha
            · refine ⟨a, ?_, le_refl a⟩
              dsimp only
              unfold rankAt
              rw [updateWhere_getElem, updateWhere_getElem, hi]
              dsimp only [Option.map_some']
              rw [if_neg hid]
              rw [if_neg hid]
              exact ha
        · rw [if_pos hg]
          refine ⟨a, ?_, le_refl a⟩
          unfold rankAt
          rw [hi]
          exact ha

/-- C1: over any sequence of admin transition operations (run, mark
delivered, archive) applied to a table with unique identifiers, the status
rank of every row only moves forward through the fixed sequence
`PAID`/`APPROVED` → `RUN_STARTED` → `REPORT_READY` → `DELIVERED` →
`ARCHIVED`: the row keeps a rank and that rank never decreases. -/
theorem C1_status_monotone (store : Store) (ops : List AdminOp) (i a : Nat)
    (hnd : (store.map Request.id).Nodup) (ha : rankAt store i = some a) :
    (rankAt (applyOps store ops) i).isSome = true ∧
    a ≤ (rankAt (applyOps store ops) i).getD 0 := by
  induction ops generalizing store a with
  | nil => simp [applyOps, ha]
  | cons op rest ih =>
    rcases applyOp_rank_advance store op hnd i a ha with ⟨b, hb, hab⟩
    have hnd2 : ((applyOp store op).map Request.id).Nodup := by
      rw [applyOp_map_id]; exact hnd
    have hrest := ih (applyOp store op) b hnd2 hb
    have hstep : applyOps store (op :: rest) = applyOps (applyOp store op) rest := rfl
    rw [hstep]
    exact ⟨hrest.1, le_trans hab hrest.2⟩

theorem C1_status_monotone_witness :
    (rankAt (applyOps [sampleReq]
      [AdminOp.runOp "/srv/reports" "2026-10-12" 5 true "a",
       AdminOp.archiveOp 6 "a"]) 0).isSome = true ∧
    0 ≤ (rankAt (applyOps [sampleReq]
      [AdminOp.runOp "/srv/reports" "2026-10-12" 5 true "a",
       AdminOp.archiveOp 6 "a"]) 0).getD 0 :=
  C1_status_monotone [sampleReq]
    [AdminOp.runOp "/srv/reports" "2026-10-12" 5 true "a",
     AdminOp.archiveOp 6 "a"] 0 0 (by decide) (by decide)

theorem C6_intake_status_witness :
    (admin_new_request [] 0 "r1" "C" "e" "G" "A" "P" "U" "D" (some " approved ") none).store =
      [] ++ [new_request_record 0 "r1" "C" "e" "G" "A" "P" "U" "D" (some " approved ") none] ∧
    (new_request_record 0 "r1" "C" "e" "G" "A" "P" "U" "D" (some " approved ") none).status =
      pyUpper (pyStrip (match (some " approved " : Option String) with
        | none => "PAID"
        | some s => if s = "" then "PAID" else s)) ∧
    (new_request_record 0 "r1" "C" "e" "G" "A" "P" "U" "D" none none).status = "PAID" ∧
    (new_request_record 0 "r1" "C" "e" "G" "A" "P" "U" "D" (some "") none).status = "PAID" :=
  C6_intake_status [] 0 "r1" "C" "e" "G" "A" "P" "U" "D" (some " approved ") none

theorem C8_delete_removes_record_witness :
    findById (admin_delete [sampleReq] "a").store "a" = none ∧
    (admin_run "/srv/reports" "2026-10-12" 9 true (admin_delete [sampleReq] "a").store "a").response =
      Response.notFound "Request not found" ∧
    (admin_download (admin_delete [sampleReq] "a").store "a").response =
      Response.notFound "Report not found" :=
  C8_delete_removes_record [sampleReq] "a" "/srv/reports" "2026-10-12" 9 true

theorem C10_safe_slug_sanitizes_witness :
    safe_slug "a/b: c" ≠ "" ∧ (safe_slug "a/b: c").length ≤ 40 ∧
    ((safe_slug "a/b: c").data.all (fun c => c.isAlphanum || c == '_')) = true :=
  C10_safe_slug_sanitizes "a/b: c"
